import Mathlib

/-!
Shallow embedding of the slooze-backend food-ordering service.

The data model mirrors `app/models/*` (ids are `Nat`, UUIDs are modelled as
`Nat`, `Numeric(10,2)` money columns are modelled as exact integers, role and
status columns are the `String`s the source compares against).  Each FastAPI
endpoint of `app/routers/*` becomes a pure function from its arguments and a
`DB` snapshot to `Except ApiError (DB × response)`; an `HTTPException` raised
before the commit becomes an `.error` result, which by construction leaves the
store unchanged.  The `require_roles` dependency of `app/core/rbac.py` is the
first gate of every protected endpoint, and `current_user.role.name` is the
relationship lookup `roleName`.
-/

deriving instance DecidableEq for Except

/-- Row of the `roles` table (`app/models/role.py`, seeded by `app/seed.py`). -/
structure Role where
  id : Nat
  name : String
deriving Repr, DecidableEq

/-- Row of the `countries` table (`app/models/country.py`). -/
structure Country where
  id : Nat
  name : String
deriving Repr, DecidableEq

/-- Row of the `users` table (`app/models/user.py`). -/
structure User where
  id : Nat
  name : String
  email : String
  password_hash : String
  role_id : Nat
  country_id : Nat
deriving Repr, DecidableEq

/-- Row of the `restaurants` table (`app/models/restaurant.py`). -/
structure Restaurant where
  id : Nat
  name : String
  country_id : Nat
deriving Repr, DecidableEq

/-- Row of the `menu_items` table (`app/models/menu_item.py`). -/
structure MenuItem where
  id : Nat
  name : String
  description : Option String
  price : Int
  is_available : Bool
  restaurant_id : Nat
deriving Repr, DecidableEq

/-- Row of the `orders` table (`app/models/order.py`); `status` defaults to
`"CREATED"` and `total_amount` to `0`. -/
structure Order where
  id : Nat
  user_id : Nat
  restaurant_id : Nat
  status : String
  total_amount : Int
deriving Repr, DecidableEq

/-- Row of the `order_items` table (`app/models/order_item.py`).  `quantity`
is a plain `int` column and `price` is the unit price copied from the menu
item at add time. -/
structure OrderItem where
  id : Nat
  order_id : Nat
  menu_item_id : Nat
  quantity : Int
  price : Int
deriving Repr, DecidableEq

/-- Row of the `payment_methods` table (`app/models/payment_method.py`). -/
structure PaymentMethod where
  id : Nat
  user_id : Nat
  type : String
  provider : String
  last_four : String
  is_default : Bool
deriving Repr, DecidableEq

/-- Snapshot of the relational store. -/
structure DB where
  roles : List Role
  countries : List Country
  users : List User
  restaurants : List Restaurant
  menu_items : List MenuItem
  orders : List Order
  order_items : List OrderItem
  payment_methods : List PaymentMethod
deriving Repr, DecidableEq

/-- An `HTTPException(status_code, detail)` surfaced to the caller. -/
structure ApiError where
  status_code : Nat
  detail : String
deriving Repr, DecidableEq

/-- `select(Order).where(Order.id == order_id)` + `scalar_one_or_none()`. -/
def findOrder (db : DB) (order_id : Nat) : Option Order :=
  db.orders.find? (fun o => o.id == order_id)

/-- `select(Restaurant).where(Restaurant.id == rid)` + `scalar_one_or_none()`. -/
def findRestaurant (db : DB) (rid : Nat) : Option Restaurant :=
  db.restaurants.find? (fun r => r.id == rid)

/-- `select(MenuItem).where(MenuItem.id == mid)` + `scalar_one_or_none()`. -/
def findMenuItem (db : DB) (mid : Nat) : Option MenuItem :=
  db.menu_items.find? (fun m => m.id == mid)

/-- `select(PaymentMethod).where(PaymentMethod.id == pid)` + `scalar_one_or_none()`. -/
def findPayment (db : DB) (pid : Nat) : Option PaymentMethod :=
  db.payment_methods.find? (fun p => p.id == pid)

/-- The relationship access `current_user.role.name`: the name of the role row
referenced by the user's `role_id` (FK integrity guarantees presence; `""` is
the total-function default for a dangling reference). -/
def roleName (db : DB) (u : User) : String :=
  ((db.roles.find? (fun r => r.id == u.role_id)).map Role.name).getD ""

/-- The `require_roles(*allowed_roles)` dependency of `app/core/rbac.py`:
passes the resolved user through when its role name is allowed, else 403. -/
def require_roles (allowed : List String) (db : DB) (u : User) :
    Except ApiError User :=
  if allowed.contains (roleName db u) then .ok u
  else .error ⟨403, "Access denied"⟩

/-- Commit of an ORM mutation of the order object returned by
`scalar_one_or_none()`: the first row with the updated order's id is replaced,
the rest of the table is untouched. -/
def replaceOrder : List Order → Order → List Order
  | [], _ => []
  | o :: os, o' => if o.id == o'.id then o' :: os else o :: replaceOrder os o'

/-- Commit of an ORM mutation of a payment-method object: the first row with
the updated row's id is replaced. -/
def replacePayment : List PaymentMethod → PaymentMethod → List PaymentMethod
  | [], _ => []
  | p :: ps, p' => if p.id == p'.id then p' :: ps else p :: replacePayment ps p'

/-- `AddItemRequest` of `app/schemas/order.py`: `quantity` is a plain `int`
with no positivity constraint. -/
structure AddItemRequest where
  menu_item_id : Nat
  quantity : Int
deriving Repr, DecidableEq

/-- `CheckoutRequest` of `app/schemas/order.py`. -/
structure CheckoutRequest where
  payment_id : Nat
deriving Repr, DecidableEq

/-- `OrderCreate` of `app/schemas/order.py`. -/
structure OrderCreate where
  restaurant_id : Nat
deriving Repr, DecidableEq

/-- `GetOrdersQuery` of `app/schemas/order.py` (FastAPI validates
`skip >= 0`, `1 <= limit <= 100`, so they are naturals here). -/
structure GetOrdersQuery where
  restaurant_id : Option Nat
  skip : Nat
  limit : Nat
deriving Repr, DecidableEq

/-- `AddItemResponse` of `app/schemas/order.py`. -/
structure AddItemResponse where
  message : String
deriving Repr, DecidableEq

/-- `CheckoutResponse` of `app/schemas/order.py`. -/
structure CheckoutResponse where
  order_id : Nat
  status : String
  total_amount : Int
deriving Repr, DecidableEq

/-- `OrderCreateResponse` of `app/schemas/order.py`. -/
structure OrderCreateResponse where
  order_id : Nat
  status : String
deriving Repr, DecidableEq

/-- `CancelOrderResponse` of `app/schemas/order.py`. -/
structure CancelOrderResponse where
  message : String
deriving Repr, DecidableEq

/-- `PaginationMetadata` of `app/schemas/restaurant.py`; the source field
`end` is a reserved word in Lean and is spelled `end_` here. -/
structure PaginationMetadata where
  total : Nat
  skip : Nat
  limit : Nat
  start : Nat
  end_ : Nat
deriving Repr, DecidableEq

/-- POST `/orders/{order_id}/items` (`add_item` in `app/routers/orders.py`):
role gate, order lookup, ownership check for non-ADMIN, CREATED-status check,
menu-item lookup and availability check, then one OrderItem insert capturing
the menu item's current price plus the total increment, committed together. -/
def add_item (current_user : User) (order_id : Nat) (data : AddItemRequest)
    (db : DB) : Except ApiError (DB × AddItemResponse) :=
  match require_roles ["ADMIN", "MANAGER", "MEMBER"] db current_user with
  | .error e => .error e
  | .ok _ =>
    match findOrder db order_id with
    | none => .error ⟨404, "Order not found"⟩
    | some order =>
      if roleName db current_user != "ADMIN" && order.user_id != current_user.id then
        .error ⟨403, "Not your order"⟩
      else if order.status != "CREATED" then
        .error ⟨400, "Order already finalized"⟩
      else
        match findMenuItem db data.menu_item_id with
        | none => .error ⟨404, "Menu item unavailable"⟩
        | some menu_item =>
          if !menu_item.is_available then
            .error ⟨404, "Menu item unavailable"⟩
          else
            let order_item : OrderItem :=
              ⟨db.order_items.length + 1, order.id, menu_item.id,
               data.quantity, menu_item.price⟩
            let order' :=
              { order with
                total_amount := order.total_amount + menu_item.price * data.quantity }
            .ok ({ db with
                    orders := replaceOrder db.orders order',
                    order_items := db.order_items ++ [order_item] },
                 ⟨"Item added successfully"⟩)

/-- POST `/orders/{order_id}/checkout` (`checkout_order` in
`app/routers/orders.py`): ADMIN/MANAGER gate, order lookup, ownership check
for non-ADMIN, CREATED-status check, payment-method existence check, then the
status flips to PLACED and the final total is returned. -/
def checkout_order (current_user : User) (order_id : Nat)
    (data : CheckoutRequest) (db : DB) :
    Except ApiError (DB × CheckoutResponse) :=
  match require_roles ["ADMIN", "MANAGER"] db current_user with
  | .error e => .error e
  | .ok _ =>
    match findOrder db order_id with
    | none => .error ⟨404, "Order not found"⟩
    | some order =>
      if roleName db current_user != "ADMIN" && order.user_id != current_user.id then
        .error ⟨403, "Access denied: not your order"⟩
      else if order.status != "CREATED" then
        .error ⟨400, "Already processed"⟩
      else
        match findPayment db data.payment_id with
        | none => .error ⟨404, "Payment method not found"⟩
        | some _ =>
          let order' := { order with status := "PLACED" }
          .ok ({ db with orders := replaceOrder db.orders order' },
               ⟨order'.id, order'.status, order'.total_amount⟩)

/-- PATCH `/orders/{order_id}/cancel` (`cancel_order` in
`app/routers/orders.py`): ADMIN/MANAGER gate, order lookup, PLACED-status
check (no ownership check), then the status flips to CANCELLED. -/
def cancel_order (current_user : User) (order_id : Nat) (db : DB) :
    Except ApiError (DB × CancelOrderResponse) :=
  match require_roles ["ADMIN", "MANAGER"] db current_user with
  | .error e => .error e
  | .ok _ =>
    match findOrder db order_id with
    | none => .error ⟨404, "Order not found"⟩
    | some order =>
      if order.status != "PLACED" then
        .error ⟨400, "Only placed orders can be cancelled"⟩
      else
        .ok ({ db with
                orders := replaceOrder db.orders { order with status := "CANCELLED" } },
             ⟨"Order cancelled"⟩)

/-- POST `/orders/` (`create_order` in `app/routers/orders.py`): role gate,
restaurant lookup, country check for non-ADMIN, then a new order with
status CREATED and total 0 is inserted.  `newId` models the random
`uuid.uuid4` primary-key default. -/
def create_order (current_user : User) (data : OrderCreate) (newId : Nat)
    (db : DB) : Except ApiError (DB × OrderCreateResponse) :=
  match require_roles ["ADMIN", "MANAGER", "MEMBER"] db current_user with
  | .error e => .error e
  | .ok _ =>
    match findRestaurant db data.restaurant_id with
    | none => .error ⟨404, "Restaurant not found"⟩
    | some restaurant =>
      if roleName db current_user != "ADMIN"
          && restaurant.country_id != current_user.country_id then
        .error ⟨403, "Access denied"⟩
      else
        let order : Order := ⟨newId, current_user.id, data.restaurant_id, "CREATED", 0⟩
        .ok ({ db with orders := db.orders ++ [order] }, ⟨order.id, order.status⟩)

/-- The `(rows.offset(skip).limit(limit))` clause of every listing query. -/
def paginate (skip limit : Nat) (xs : List α) : List α :=
  (xs.drop skip).take limit

/-- Helper of `sortByOrderId`: ordered insertion by `Order.id`. -/
def insertById (o : Order) : List Order → List Order
  | [] => [o]
  | x :: xs => if o.id ≤ x.id then o :: x :: xs else x :: insertById o xs

/-- The `order_by(Order.id)` clause of the orders listing. -/
def sortByOrderId : List Order → List Order
  | [] => []
  | x :: xs => insertById x (sortByOrderId xs)

/-- Country scope of the orders listing (`app/routers/orders.py`, the
non-ADMIN branch joins `Restaurant` and keeps orders whose restaurant is in
the caller's country; ADMIN sees every order). -/
def ordersScope (db : DB) (current_user : User) : List Order :=
  if roleName db current_user == "ADMIN" then db.orders
  else
    db.orders.filter (fun o =>
      match findRestaurant db o.restaurant_id with
      | some r => r.country_id == current_user.country_id
      | none => false)

/-- Rows matched by both the base query and the count query of
`list_orders`: the country scope narrowed by the optional restaurant
filter. -/
def ordersMatching (db : DB) (current_user : User) (q : GetOrdersQuery) :
    List Order :=
  match q.restaurant_id with
  | none => ordersScope db current_user
  | some rid => (ordersScope db current_user).filter (fun o => o.restaurant_id == rid)

/-- `OrderItemDetail` of `app/schemas/order.py`. -/
structure OrderItemDetail where
  menu_item_name : String
  quantity : Int
  price : Int
deriving Repr, DecidableEq

/-- `OrderResponse` of `app/schemas/order.py`. -/
structure OrderResponse where
  id : Nat
  user_id : Nat
  restaurant_id : Nat
  restaurant_name : String
  status : String
  total_amount : Int
  items : List OrderItemDetail
deriving Repr, DecidableEq

/-- `OrderListResponse` of `app/schemas/order.py`. -/
structure OrderListResponse where
  items : List OrderResponse
  pagination_metadata : PaginationMetadata
deriving Repr, DecidableEq

/-- The nested `o.items` detail built by `list_orders` (relationship access
`item.menu_item.name`; FK integrity guarantees presence, `""` is the
total-function default). -/
def orderItemDetails (db : DB) (o : Order) : List OrderItemDetail :=
  (db.order_items.filter (fun i => i.order_id == o.id)).map (fun i =>
    ⟨((findMenuItem db i.menu_item_id).map MenuItem.name).getD "", i.quantity, i.price⟩)

/-- Relationship access `o.restaurant.name`. -/
def restaurantName (db : DB) (rid : Nat) : String :=
  ((findRestaurant db rid).map Restaurant.name).getD ""

/-- GET `/orders/` (`list_orders` in `app/routers/orders.py`): role gate,
country scope for non-ADMIN, optional restaurant filter, `total` counted on
the same filters without skip/limit, page ordered by order id, and the
1-based `start`/`end` markers (`start = 0` on an empty page,
`end = skip + count_returned` always). -/
def list_orders (query : GetOrdersQuery) (current_user : User) (db : DB) :
    Except ApiError OrderListResponse :=
  match require_roles ["ADMIN", "MANAGER", "MEMBER"] db current_user with
  | .error e => .error e
  | .ok _ =>
    let matching := ordersMatching db current_user query
    let total := matching.length
    let orders := paginate query.skip query.limit (sortByOrderId matching)
    let items := orders.map (fun o =>
      OrderResponse.mk o.id o.user_id o.restaurant_id
        (restaurantName db o.restaurant_id) o.status o.total_amount
        (orderItemDetails db o))
    let num_items := items.length
    let start := if num_items > 0 then query.skip + 1 else 0
    .ok ⟨items, ⟨total, query.skip, query.limit, start, query.skip + num_items⟩⟩

/-- `RestaurantResponse` of `app/schemas/restaurant.py`. -/
structure RestaurantResponse where
  id : Nat
  name : String
  country : String
deriving Repr, DecidableEq

/-- `RestaurantListResponse` of `app/schemas/restaurant.py`. -/
structure RestaurantListResponse where
  items : List RestaurantResponse
  pagination_metadata : PaginationMetadata
deriving Repr, DecidableEq

/-- Relationship access `r.country.name`. -/
def countryName (db : DB) (cid : Nat) : String :=
  ((db.countries.find? (fun c => c.id == cid)).map Country.name).getD ""

/-- Country scope of the restaurants listing (`app/routers/restaurants.py`):
ADMIN sees every restaurant, anyone else only those of their own country.
The source appends the `where` clause after `offset`/`limit`; on a SQL
`select` construct the filter still applies before the page is cut. -/
def restaurantsScope (db : DB) (current_user : User) : List Restaurant :=
  if roleName db current_user == "ADMIN" then db.restaurants
  else db.restaurants.filter (fun r => r.country_id == current_user.country_id)

/-- GET `/restaurants/` (`get_restaurants` in `app/routers/restaurants.py`). -/
def get_restaurants (current_user : User) (db : DB) (skip limit : Nat) :
    Except ApiError RestaurantListResponse :=
  match require_roles ["ADMIN", "MANAGER", "MEMBER"] db current_user with
  | .error e => .error e
  | .ok _ =>
    let matching := restaurantsScope db current_user
    let total := matching.length
    let restaurants := paginate skip limit matching
    let items := restaurants.map (fun r =>
      RestaurantResponse.mk r.id r.name (countryName db r.country_id))
    let num_items := items.length
    let start := if num_items > 0 then skip + 1 else 0
    .ok ⟨items, ⟨total, skip, limit, start, skip + num_items⟩⟩

/-- `MenuItemResponse` of `app/schemas/menu_item.py`. -/
structure MenuItemResponse where
  id : Nat
  name : String
  description : Option String
  price : Int
  is_available : Bool
  restaurant_id : Nat
deriving Repr, DecidableEq

/-- `MenuItemListResponse` of `app/schemas/menu_item.py`. -/
structure MenuItemListResponse where
  items : List MenuItemResponse
  pagination_metadata : PaginationMetadata
deriving Repr, DecidableEq

/-- GET `/menu-items/{restaurant_id}` (`get_menu_items` in
`app/routers/menu_items.py`): role gate, restaurant lookup (404 when absent),
country check for non-ADMIN (403), then the page of that restaurant's items,
unavailable ones included. -/
def get_menu_items (restaurant_id : Nat) (current_user : User) (db : DB)
    (skip limit : Nat) : Except ApiError MenuItemListResponse :=
  match require_roles ["ADMIN", "MANAGER", "MEMBER"] db current_user with
  | .error e => .error e
  | .ok _ =>
    match findRestaurant db restaurant_id with
    | none => .error ⟨404, "Restaurant not found"⟩
    | some restaurant =>
      if roleName db current_user != "ADMIN"
          && restaurant.country_id != current_user.country_id then
        .error ⟨403, "Access denied"⟩
      else
        let matching := db.menu_items.filter (fun m => m.restaurant_id == restaurant_id)
        let total := matching.length
        let menu_items := paginate skip limit matching
        let items := menu_items.map (fun m =>
          MenuItemResponse.mk m.id m.name m.description m.price m.is_available
            m.restaurant_id)
        let num_items := items.length
        let start := if num_items > 0 then skip + 1 else 0
        .ok ⟨items, ⟨total, skip, limit, start, skip + num_items⟩⟩

/-- `PaymentMethodCreate` of `app/schemas/payment.py`. -/
structure PaymentMethodCreate where
  type : String
  provider : String
  last_four : String
  is_default : Bool
deriving Repr, DecidableEq

/-- `PaymentMethodUpdate` of `app/schemas/payment.py` (partial update). -/
structure PaymentMethodUpdate where
  provider : Option String
  is_default : Option Bool
deriving Repr, DecidableEq

/-- `PaymentMethodCreatedResponse` of `app/schemas/payment.py`. -/
structure PaymentMethodCreatedResponse where
  message : String
  id : Nat
deriving Repr, DecidableEq

/-- `PaymentMethodUpdatedResponse` of `app/schemas/payment.py`. -/
structure PaymentMethodUpdatedResponse where
  message : String
deriving Repr, DecidableEq

/-- POST `/payments/` (`add_payment_method` in `app/routers/payments.py`):
ADMIN gate; when `is_default` is set, the bulk update first clears the flag
on every payment method of the caller, then the new row is inserted, both in
one commit.  The autoincrement primary key is modelled as `length + 1`. -/
def add_payment_method (current_user : User) (data : PaymentMethodCreate)
    (db : DB) : Except ApiError (DB × PaymentMethodCreatedResponse) :=
  match require_roles ["ADMIN"] db current_user with
  | .error e => .error e
  | .ok _ =>
    let pms :=
      if data.is_default then
        db.payment_methods.map (fun p =>
          if p.user_id == current_user.id then { p with is_default := false } else p)
      else db.payment_methods
    let payment : PaymentMethod :=
      ⟨db.payment_methods.length + 1, current_user.id, data.type, data.provider,
       data.last_four, data.is_default⟩
    .ok ({ db with payment_methods := pms ++ [payment] },
         ⟨"Payment method added", payment.id⟩)

/-- PUT `/payments/{payment_id}` (`update_payment_method` in
`app/routers/payments.py`): ADMIN gate, lookup (404 when absent), then only
the supplied fields change; setting `is_default` here clears no other row. -/
def update_payment_method (payment_id : Nat) (data : PaymentMethodUpdate)
    (current_user : User) (db : DB) :
    Except ApiError (DB × PaymentMethodUpdatedResponse) :=
  match require_roles ["ADMIN"] db current_user with
  | .error e => .error e
  | .ok _ =>
    match findPayment db payment_id with
    | none => .error ⟨404, "Payment method not found"⟩
    | some payment =>
      let payment :=
        match data.provider with
        | some pr => { payment with provider := pr }
        | none => payment
      let payment :=
        match data.is_default with
        | some d => { payment with is_default := d }
        | none => payment
      .ok ({ db with payment_methods := replacePayment db.payment_methods payment },
           ⟨"Payment method updated"⟩)

/-- `RegisterRequest` of `app/schemas/auth.py`; `role` ranges over the
`RoleEnum` strings and `country` over the `CountryEnum` strings (pydantic
rejects anything else with 422 before the handler runs). -/
structure RegisterRequest where
  name : String
  email : String
  password : String
  role : String
  country : String
deriving Repr, DecidableEq

/-- Hex digest of `hashlib.sha256` — a Python-standard-library collaborator,
not code of this repository.  Idealised as a collision-free digest; the
identity is the simplest injective choice, and no verified claim depends on
the digest's value. -/
def sha256_hexdigest (s : String) : String := s

/-- Salt drawn by `bcrypt.gensalt()` — an external library collaborator with
a random result; its value is irrelevant under the idealised `bcrypt` model
below. -/
def bcrypt_gensalt : String := ""

/-- `bcrypt.hashpw` of the external `bcrypt` library, idealised as a
collision-free digest that ignores the salt, so that `bcrypt_checkpw` below
is its exact inverse check — which is the library's contract. -/
def bcrypt_hashpw (prehash salt : String) : String := prehash

/-- `bcrypt.checkpw` of the external `bcrypt` library (see `bcrypt_hashpw`). -/
def bcrypt_checkpw (prehash hashed : String) : Bool := prehash == hashed

/-- `_prehash` of `app/core/security.py`: SHA-256 pre-hash so that bcrypt's
72-byte input limit never truncates a long password. -/
def _prehash (password : String) : String := sha256_hexdigest password

/-- `hash_password` of `app/core/security.py`: bcrypt over the SHA-256
pre-hash with a fresh salt. -/
def hash_password (password : String) : String :=
  bcrypt_hashpw (_prehash password) bcrypt_gensalt

/-- `verify_password` of `app/core/security.py`. -/
def verify_password (plain hashed : String) : Bool :=
  bcrypt_checkpw (_prehash plain) hashed

/-- Claims payload of a token issued by this service: `sub` is the user id
(`str(user.id)` in the source; ids are `Nat` in this embedding), `name` and
`email` are display claims, `role` is a claim only `login` adds (absent is
`none`), and `exp` is stamped by `create_access_token` (0 before stamping). -/
structure TokenPayload where
  sub : Nat
  name : String
  email : String
  role : Option String
  exp : Nat
deriving Repr, DecidableEq

/-- `jwt.encode(claims, settings.SECRET_KEY, settings.ALGORITHM)` of the
external `jose` library: a signed token is modelled as its claims payload —
the signature is the library's concern, and decoding under the same secret
recovers exactly the payload. -/
def jwt_encode (claims : TokenPayload) : TokenPayload := claims

/-- `jwt.decode(token, settings.SECRET_KEY, ...)` of the external `jose`
library, inverse of `jwt_encode`; its rejection of malformed or
foreign-signed tokens happens before this model's domain. -/
def jwt_decode (token : TokenPayload) : TokenPayload := token

/-- `create_access_token` of `app/core/security.py`: copies the claims,
stamps the `exp` claim and signs with `jwt.encode`.  The source computes
`exp` as `datetime.utcnow() + timedelta(minutes=settings.ACCESS_TOKEN_EXPIRE_MINUTES)`
from two external inputs — the clock and the deployment config
(`app/core/config.py`, not among the sources here); `expire` stands for that
computed instant. -/
def create_access_token (data : TokenPayload) (expire : Nat) : TokenPayload :=
  jwt_encode { data with exp := expire }

/-- `RegisterResponse` of `app/schemas/auth.py` (the source returns
`str(user.id)`; ids are `Nat` throughout this embedding; `token_type`
defaults to `"bearer"`). -/
structure RegisterResponse where
  id : Nat
  name : String
  email : String
  access_token : TokenPayload
  token_type : String := "bearer"
deriving Repr, DecidableEq

/-- The `get_current_user` dependency of `app/core/dependencies.py`: decode
the bearer token, read its `sub` claim and re-resolve the user (with its
role) from the store; a `sub` matching no stored user fails 401.  The 401s
for undecodable tokens and malformed UUIDs sit in the library collaborator's
rejection path, before this model's domain. -/
def get_current_user (token : TokenPayload) (db : DB) : Except ApiError User :=
  match db.users.find? (fun u0 => u0.id == (jwt_decode token).sub) with
  | some u => .ok u
  | none => .error ⟨401, "Could not validate credentials"⟩

/-- POST `/auth/register` (`register` in `app/routers/auth.py`): no
authentication dependency; the requested role and country names are resolved
to seeded rows (400 when either is unknown), the user is inserted with the
resolved `role_id`, and a token carrying the `sub`, `name` and `email`
claims is issued.  The handler itself never checks the email; the
`unique=True` constraint on `users.email` makes the commit fail, which
surfaces as a generic 500.  `newId` models the random `uuid.uuid4` id and
`expire` the token-expiry instant (see `create_access_token`). -/
def register (data : RegisterRequest) (newId expire : Nat) (db : DB) :
    Except ApiError (DB × RegisterResponse) :=
  match db.roles.find? (fun r => r.name == data.role),
        db.countries.find? (fun c => c.name == data.country) with
  | some role, some country =>
    if db.users.any (fun u => u.email == data.email) then
      .error ⟨500, "Internal Server Error"⟩
    else
      let user : User :=
        ⟨newId, data.name, data.email, hash_password data.password,
         role.id, country.id⟩
      .ok ({ db with users := db.users ++ [user] },
           { id := user.id, name := user.name, email := user.email,
             access_token := create_access_token
               ⟨user.id, user.name, user.email, none, 0⟩ expire })
  | _, _ => .error ⟨400, "Invalid role or country"⟩

/-- Sum of `price * quantity` over the rows of an `order_items` table that
belong to order `oid`. -/
def lineItemsTotal (order_items : List OrderItem) (oid : Nat) : Int :=
  ((order_items.filter (fun i => i.order_id == oid)).map
    (fun i => i.price * i.quantity)).sum

/-- Sum over an order's line items of `price * quantity` — the right-hand
side of the total-amount invariant. -/
def itemsTotal (db : DB) (oid : Nat) : Int :=
  lineItemsTotal db.order_items oid

/-- Committed state of one request: the new store on success, the unchanged
store when the handler raised before its commit. -/
def commitOr (db : DB) : Except ApiError (DB × α) → DB
  | .ok (db', _) => db'
  | .error _ => db

/-- One `add_item` request applied to the store. -/
def stepAddItem (c : User × Nat × AddItemRequest) (db : DB) : DB :=
  commitOr db (add_item c.1 c.2.1 c.2.2 db)

/-- A sequence of `add_item` requests applied in order. -/
def runAddItems (calls : List (User × Nat × AddItemRequest)) (db : DB) : DB :=
  match calls with
  | [] => db
  | c :: cs => runAddItems cs (stepAddItem c db)

/-- One request against the order component. -/
inductive Op where
  | createOrder (u : User) (data : OrderCreate) (newId : Nat)
  | addItem (u : User) (oid : Nat) (data : AddItemRequest)
  | checkout (u : User) (oid : Nat) (data : CheckoutRequest)
  | cancel (u : User) (oid : Nat)

/-- Effect of one order-component request on the store (failures leave the
store unchanged, exactly as the handlers raise before committing). -/
def applyOp (op : Op) (db : DB) : DB :=
  match op with
  | .createOrder u data newId => commitOr db (create_order u data newId db)
  | .addItem u oid data => commitOr db (add_item u oid data db)
  | .checkout u oid data => commitOr db (checkout_order u oid data db)
  | .cancel u oid => commitOr db (cancel_order u oid db)

/-- Allowed movement of an order's status across one request: unchanged, or
forward along CREATED → PLACED → CANCELLED. -/
def statusStep (s s' : String) : Prop :=
  s' = s ∨ (s = "CREATED" ∧ s' = "PLACED") ∨ (s = "PLACED" ∧ s' = "CANCELLED")

/-- Number of payment methods of one user carrying the default flag. -/
def defaultCount (db : DB) (uid : Nat) : Nat :=
  (db.payment_methods.filter (fun p => p.user_id == uid && p.is_default)).length

/-- Seeded role rows (`app/seed.py` over `RoleEnum`). -/
def seededRoles : List Role := [⟨1, "ADMIN"⟩, ⟨2, "MANAGER"⟩, ⟨3, "MEMBER"⟩]

/-- Seeded country rows (`app/seed.py` over `CountryEnum`). -/
def seededCountries : List Country := [⟨1, "India"⟩, ⟨2, "America"⟩]

/-- Concrete ADMIN user in country 1, for witnesses. -/
def adminUser : User := ⟨1, "Ada", "ada@example.com", "h1", 1, 1⟩

/-- Concrete MANAGER user in country 1, for witnesses. -/
def managerUser : User := ⟨2, "Mia", "mia@example.com", "h2", 2, 1⟩

/-- Concrete MEMBER user in country 1, for witnesses. -/
def memberUser : User := ⟨3, "Moe", "moe@example.com", "h3", 3, 1⟩

/-- Users of the witness stores. -/
def baseUsers : List User := [adminUser, managerUser, memberUser]

/-- Restaurants of the witness stores: one in country 1, one in country 2. -/
def baseRestaurants : List Restaurant := [⟨1, "Cafe", 1⟩, ⟨2, "Diner", 2⟩]

/-- Menu of the witness stores: one available item priced 500 at restaurant 1. -/
def baseMenu : List MenuItem := [⟨1, "Tea", none, 500, true, 1⟩]

/-- Witness store with one freshly created order (id 1, owner `managerUser`,
status CREATED, total 0, no line items) and one payment method. -/
def dbOrders : DB :=
  ⟨seededRoles, seededCountries, baseUsers, baseRestaurants, baseMenu,
   [⟨1, 2, 1, "CREATED", 0⟩], [], [⟨1, 1, "CARD", "Visa", "1111", true⟩]⟩

/-- Witness store whose order 1 (owner `managerUser`) is already PLACED. -/
def dbPlaced : DB :=
  ⟨seededRoles, seededCountries, baseUsers, baseRestaurants, baseMenu,
   [⟨1, 2, 1, "PLACED", 500⟩], [⟨1, 1, 1, 1, 500⟩],
   [⟨1, 1, "CARD", "Visa", "1111", true⟩]⟩

/-- Witness store where user 1 owns payment method 1 (default) and payment
method 2 (not default). -/
def dbPayments : DB :=
  ⟨seededRoles, seededCountries, baseUsers, baseRestaurants, baseMenu, [], [],
   [⟨1, 1, "CARD", "Visa", "1111", true⟩, ⟨2, 1, "UPI", "GPay", "2222", false⟩]⟩

/-- Store produced by adding a new default payment method for user 1 to
`dbPayments`: the old defaults are cleared and the new row 3 is the only
default. -/
def dbPayAfter : DB :=
  ⟨seededRoles, seededCountries, baseUsers, baseRestaurants, baseMenu, [], [],
   [⟨1, 1, "CARD", "Visa", "1111", false⟩, ⟨2, 1, "UPI", "GPay", "2222", false⟩,
    ⟨3, 1, "CARD", "Amex", "3333", true⟩]⟩

/-- Witness store holding exactly five restaurants, all in country 1. -/
def dbFive : DB :=
  ⟨seededRoles, seededCountries, baseUsers,
   [⟨1, "R1", 1⟩, ⟨2, "R2", 1⟩, ⟨3, "R3", 1⟩, ⟨4, "R4", 1⟩, ⟨5, "R5", 1⟩],
   [], [], [], []⟩

/-- Witness store holding only the seeded roles and countries. -/
def dbSeedOnly : DB := ⟨seededRoles, seededCountries, [], [], [], [], [], []⟩

example :
    (create_order ⟨7, "a", "a@x", "h", 1, 1⟩ ⟨1⟩ 5
      ⟨[⟨1, "ADMIN"⟩], [⟨1, "India"⟩], [], [⟨1, "Cafe", 1⟩], [], [], [], []⟩).isOk = true := by
  decide

example : (add_item managerUser 1 ⟨1, 0⟩ dbOrders).isOk = true := by decide

example :
    add_item memberUser 1 ⟨1, 1⟩ dbPlaced = .error ⟨403, "Not your order"⟩ := by decide

example :
    (get_restaurants adminUser dbFive 10 20 : Except ApiError RestaurantListResponse)
      = .ok ⟨[], ⟨5, 10, 20, 0, 10⟩⟩ := by decide

/-! Helper lemmas about the store primitives. -/

theorem find?_replaceOrder_ne (os : List Order) (o' : Order) (n : Nat)
    (h : (o'.id == n) = false) :
    (replaceOrder os o').find? (fun x => x.id == n)
      = os.find? (fun x => x.id == n) := by
  induction os with
  | nil => rfl
  | cons x xs ih =>
    cases hx : x.id == o'.id with
    | true =>
      have hxid : x.id = o'.id := by simpa using hx
      have hxn : (x.id == n) = false := by rw [hxid]; exact h
      simp [replaceOrder, hx, List.find?, hxn, h]
    | false =>
      cases hxn : x.id == n with
      | true => simp [replaceOrder, hx, List.find?, hxn]
      | false => simp [replaceOrder, hx, List.find?, hxn, ih]

theorem find?_replaceOrder_eq (os : List Order) (o o' : Order) (n : Nat)
    (h : os.find? (fun x => x.id == n) = some o) (hid : o'.id = o.id) :
    (replaceOrder os o').find? (fun x => x.id == n) = some o' := by
  have hon := List.find?_some h
  simp only at hon
  induction os with
  | nil => simp at h
  | cons x xs ih =>
    simp only [replaceOrder]
    cases hxn : x.id == n with
    | true =>
      rw [List.find?] at h
      simp only [hxn] at h
      have hxo : x = o := by simpa using h
      have hcond : (x.id == o'.id) = true := by simp [hxo, hid]
      have hoid : (o'.id == n) = true := by rw [hid]; exact hon
      simp only [if_pos hcond, List.find?, hoid]
    | false =>
      rw [List.find?] at h
      simp only [hxn] at h
      have hcond : (x.id == o'.id) = false := by
        have hn : o'.id = n := by rw [hid]; simpa using hon
        rw [hn]; exact hxn
      simp only [hcond, if_neg (by simp [hcond] : ¬ (x.id == o'.id) = true),
        List.find?, hxn]
      exact ih h

theorem lineItemsTotal_append (l1 l2 : List OrderItem) (oid : Nat) :
    lineItemsTotal (l1 ++ l2) oid = lineItemsTotal l1 oid + lineItemsTotal l2 oid := by
  simp [lineItemsTotal, List.filter_append]

theorem lineItemsTotal_singleton (oi : OrderItem) (oid : Nat) :
    lineItemsTotal [oi] oid
      = if (oi.order_id == oid) = true then oi.price * oi.quantity else 0 := by
  cases h : oi.order_id == oid <;> simp [lineItemsTotal, List.filter, h]

theorem mem_paginate {x : α} {skip limit : Nat} {l : List α}
    (h : x ∈ paginate skip limit l) : x ∈ l :=
  List.drop_subset skip l (List.take_subset limit _ h)

theorem mem_insertById {x o : Order} {l : List Order} :
    x ∈ insertById o l ↔ x = o ∨ x ∈ l := by
  induction l with
  | nil => simp [insertById]
  | cons y ys ih =>
    simp only [insertById]
    by_cases h : o.id ≤ y.id
    · simp [h]
    · simp [h, ih]; tauto

theorem mem_sortByOrderId {x : Order} {l : List Order} :
    x ∈ sortByOrderId l ↔ x ∈ l := by
  induction l with
  | nil => simp [sortByOrderId]
  | cons y ys ih => simp [sortByOrderId, mem_insertById, ih]

theorem add_item_ok {u : User} {oid : Nat} {data : AddItemRequest} {db db' : DB}
    {r : AddItemResponse} (h : add_item u oid data db = .ok (db', r)) :
    ∃ order menu_item,
      findOrder db oid = some order ∧
      findMenuItem db data.menu_item_id = some menu_item ∧
      order.status = "CREATED" ∧
      menu_item.is_available = true ∧
      db'.orders = replaceOrder db.orders
        { order with
          total_amount := order.total_amount + menu_item.price * data.quantity } ∧
      db'.order_items = db.order_items ++
        [⟨db.order_items.length + 1, order.id, menu_item.id, data.quantity,
          menu_item.price⟩] ∧
      db'.roles = db.roles ∧ db'.countries = db.countries ∧
      db'.users = db.users ∧ db'.restaurants = db.restaurants ∧
      db'.menu_items = db.menu_items ∧
      db'.payment_methods = db.payment_methods := by
  unfold add_item at h
  cases hg : require_roles ["ADMIN", "MANAGER", "MEMBER"] db u with
  | error e => simp [hg] at h
  | ok w =>
    simp only [hg] at h
    cases ho : findOrder db oid with
    | none => simp [ho] at h
    | some order =>
      simp only [ho] at h
      cases h1 : roleName db u != "ADMIN" && order.user_id != u.id with
      | true => simp [h1] at h
      | false =>
        cases h2 : order.status != "CREATED" with
        | true => simp [h1, h2] at h
        | false =>
          cases hm : findMenuItem db data.menu_item_id with
          | none => simp [h1, h2, hm] at h
          | some menu_item =>
            cases h3 : menu_item.is_available with
            | false => simp [h1, h2, hm, h3] at h
            | true =>
              simp only [h1, h2, hm, h3] at h
              simp at h
              obtain ⟨hdb, hr⟩ := h
              subst hdb
              refine ⟨order, menu_item, ?_, ?_, ?_, ?_, ?_, ?_, ?_, ?_, ?_, ?_, ?_, ?_⟩
              exacts [rfl, rfl, by simpa using h2, h3, rfl, rfl, rfl, rfl, rfl,
                rfl, rfl, rfl]

theorem require_roles_ok {allowed : List String} {db : DB} {u w : User}
    (h : require_roles allowed db u = .ok w) :
    allowed.contains (roleName db u) = true ∧ w = u := by
  unfold require_roles at h
  cases hc : allowed.contains (roleName db u) with
  | true =>
    rw [if_pos hc] at h
    exact ⟨rfl, (Except.ok.inj h).symm⟩
  | false =>
    rw [if_neg (by rw [hc]; simp)] at h
    exact Except.noConfusion h

theorem require_roles_of_contains {allowed : List String} {db : DB} {u : User}
    (h : allowed.contains (roleName db u) = true) :
    require_roles allowed db u = .ok u := by
  unfold require_roles
  rw [if_pos h]

theorem checkout_ok {u : User} {oid : Nat} {data : CheckoutRequest}
    {db db' : DB} {r : CheckoutResponse}
    (h : checkout_order u oid data db = .ok (db', r)) :
    ∃ order,
      findOrder db oid = some order ∧
      order.status = "CREATED" ∧
      (roleName db u != "ADMIN" && order.user_id != u.id) = false ∧
      (["ADMIN", "MANAGER"].contains (roleName db u)) = true ∧
      (findPayment db data.payment_id).isSome = true ∧
      r = ⟨order.id, "PLACED", order.total_amount⟩ ∧
      db'.orders = replaceOrder db.orders { order with status := "PLACED" } ∧
      db'.order_items = db.order_items ∧ db'.roles = db.roles ∧
      db'.countries = db.countries ∧ db'.users = db.users ∧
      db'.restaurants = db.restaurants ∧ db'.menu_items = db.menu_items ∧
      db'.payment_methods = db.payment_methods := by
  unfold checkout_order at h
  cases hg : require_roles ["ADMIN", "MANAGER"] db u with
  | error e => simp [hg] at h
  | ok w =>
    simp only [hg] at h
    cases ho : findOrder db oid with
    | none => simp [ho] at h
    | some order =>
      simp only [ho] at h
      cases h1 : roleName db u != "ADMIN" && order.user_id != u.id with
      | true => simp [h1] at h
      | false =>
        cases h2 : order.status != "CREATED" with
        | true => simp [h1, h2] at h
        | false =>
          cases hp : findPayment db data.payment_id with
          | none => simp [h1, h2, hp] at h
          | some payment =>
            simp only [h1, h2, hp] at h
            simp at h
            obtain ⟨hdb, hr⟩ := h
            subst hdb
            refine ⟨order, ?_, ?_, ?_, ?_, ?_, ?_, ?_, ?_, ?_, ?_, ?_, ?_, ?_, ?_⟩
            exacts [rfl, by simpa using h2, h1, (require_roles_ok hg).1, rfl,
              hr.symm, rfl, rfl, rfl, rfl, rfl, rfl, rfl, rfl]

theorem cancel_ok {u : User} {oid : Nat} {db db' : DB} {r : CancelOrderResponse}
    (h : cancel_order u oid db = .ok (db', r)) :
    ∃ order,
      findOrder db oid = some order ∧
      order.status = "PLACED" ∧
      (["ADMIN", "MANAGER"].contains (roleName db u)) = true ∧
      db'.orders = replaceOrder db.orders { order with status := "CANCELLED" } ∧
      db'.order_items = db.order_items ∧ db'.roles = db.roles ∧
      db'.countries = db.countries ∧ db'.users = db.users ∧
      db'.restaurants = db.restaurants ∧ db'.menu_items = db.menu_items ∧
      db'.payment_methods = db.payment_methods := by
  unfold cancel_order at h
  cases hg : require_roles ["ADMIN", "MANAGER"] db u with
  | error e => simp [hg] at h
  | ok w =>
    simp only [hg] at h
    cases ho : findOrder db oid with
    | none => simp [ho] at h
    | some order =>
      simp only [ho] at h
      cases h1 : order.status != "PLACED" with
      | true => simp [h1] at h
      | false =>
        simp only [h1] at h
        simp at h
        obtain ⟨hdb, hr⟩ := h
        subst hdb
        refine ⟨order, ?_, ?_, ?_, ?_, ?_, ?_, ?_, ?_, ?_, ?_, ?_⟩
        exacts [rfl, by simpa using h1, (require_roles_ok hg).1, rfl, rfl, rfl,
          rfl, rfl, rfl, rfl, rfl]

theorem create_order_ok {u : User} {data : OrderCreate} {newId : Nat}
    {db db' : DB} {r : OrderCreateResponse}
    (h : create_order u data newId db = .ok (db', r)) :
    ∃ restaurant,
      findRestaurant db data.restaurant_id = some restaurant ∧
      (roleName db u != "ADMIN" && restaurant.country_id != u.country_id) = false ∧
      (["ADMIN", "MANAGER", "MEMBER"].contains (roleName db u)) = true ∧
      r = ⟨newId, "CREATED"⟩ ∧
      db'.orders = db.orders ++ [⟨newId, u.id, data.restaurant_id, "CREATED", 0⟩] ∧
      db'.order_items = db.order_items ∧ db'.roles = db.roles ∧
      db'.countries = db.countries ∧ db'.users = db.users ∧
      db'.restaurants = db.restaurants ∧ db'.menu_items = db.menu_items ∧
      db'.payment_methods = db.payment_methods := by
  unfold create_order at h
  cases hg : require_roles ["ADMIN", "MANAGER", "MEMBER"] db u with
  | error e => simp [hg] at h
  | ok w =>
    simp only [hg] at h
    cases hr : findRestaurant db data.restaurant_id with
    | none => simp [hr] at h
    | some restaurant =>
      simp only [hr] at h
      cases h1 : roleName db u != "ADMIN" && restaurant.country_id != u.country_id with
      | true => simp [h1] at h
      | false =>
        simp only [h1] at h
        simp at h
        obtain ⟨hdb, hresp⟩ := h
        subst hdb
        refine ⟨restaurant, ?_, ?_, ?_, ?_, ?_, ?_, ?_, ?_, ?_, ?_, ?_, ?_⟩
        exacts [rfl, h1, (require_roles_ok hg).1, hresp.symm, rfl, rfl, rfl,
          rfl, rfl, rfl, rfl, rfl]

theorem commitOr_ok (db : DB) (p : DB × α) : commitOr db (.ok p) = p.1 := rfl

theorem commitOr_error (db : DB) (e : ApiError) :
    commitOr (α := α) db (.error e) = db := rfl

theorem add_item_preserves_inv {u : User} {tid oid : Nat}
    {data : AddItemRequest} {db db' : DB} {r : AddItemResponse}
    (h : add_item u tid data db = .ok (db', r))
    (hinv : ∀ o, findOrder db oid = some o → o.total_amount = itemsTotal db oid) :
    ∀ o, findOrder db' oid = some o → o.total_amount = itemsTotal db' oid := by
  obtain ⟨order, mi, ho, hm, hst, hav, hords, hitems, _⟩ := add_item_ok h
  intro o hfo
  have htid : (order.id == tid) = true := by
    have := List.find?_some ho
    simpa using this
  have htot : itemsTotal db' oid = itemsTotal db oid +
      (if (order.id == oid) = true then mi.price * data.quantity else 0) := by
    simp only [itemsTotal, hitems, lineItemsTotal_append, lineItemsTotal_singleton]
  cases hcase : order.id == oid with
  | true =>
    have hoid : order.id = oid := by simpa using hcase
    have htid' : order.id = tid := by simpa using htid
    have hoeq : findOrder db oid = some order := by
      rw [← hoid, htid']; exact ho
    have hfind : findOrder db' oid = some
        { order with total_amount := order.total_amount + mi.price * data.quantity } := by
      unfold findOrder
      rw [hords]
      exact find?_replaceOrder_eq db.orders order _ oid (by unfold findOrder at hoeq; exact hoeq) rfl
    rw [hfo] at hfind
    obtain rfl := Option.some.inj hfind
    rw [htot, hcase]
    simp [hinv order hoeq]
  | false =>
    have hfind : findOrder db' oid = findOrder db oid := by
      unfold findOrder
      rw [hords]
      exact find?_replaceOrder_ne db.orders _ oid (by simpa using hcase)
    rw [hfind] at hfo
    rw [htot, hcase]
    simpa using hinv o hfo

theorem runAddItems_preserves_inv (calls : List (User × Nat × AddItemRequest))
    (oid : Nat) :
    ∀ db0 : DB,
      (∀ o, findOrder db0 oid = some o → o.total_amount = itemsTotal db0 oid) →
      ∀ o, findOrder (runAddItems calls db0) oid = some o →
        o.total_amount = itemsTotal (runAddItems calls db0) oid := by
  induction calls with
  | nil => intro db0 hbase; exact hbase
  | cons c cs ih =>
    intro db0 hbase
    refine ih (stepAddItem c db0) ?_
    unfold stepAddItem
    cases hc : add_item c.1 c.2.1 c.2.2 db0 with
    | error e => rw [commitOr_error]; exact hbase
    | ok p => rw [commitOr_ok]; exact add_item_preserves_inv hc hbase

/-- C1: starting from a freshly created order (total 0, no line items), after
any sequence of `add_item` calls (unsuccessful ones leave the store
unchanged), the order's `total_amount` equals the sum over its OrderItems of
`price * quantity`; the price of each row is the menu item's price at the
time of that call by construction of `add_item`, which copies
`menu_item.price` into the row it inserts. -/
theorem order_total_invariant (calls : List (User × Nat × AddItemRequest))
    (db0 : DB) (oid : Nat) (o0 : Order)
    (h0 : findOrder db0 oid = some o0)
    (htot0 : o0.total_amount = 0)
    (hitems0 : db0.order_items.filter (fun i => i.order_id == oid) = []) :
    ∀ o, findOrder (runAddItems calls db0) oid = some o →
      o.total_amount = itemsTotal (runAddItems calls db0) oid := by
  refine runAddItems_preserves_inv calls oid db0 ?_
  intro o ho
  have hoo : o = o0 := by
    rw [ho] at h0
    exact Option.some.inj h0
  subst hoo
  rw [htot0]
  unfold itemsTotal lineItemsTotal
  rw [hitems0]
  rfl

theorem findOrder_after_replace {db db' : DB} {order rnew : Order} {tid : Nat}
    (ho : findOrder db tid = some order)
    (hords : db'.orders = replaceOrder db.orders rnew)
    (hid : rnew.id = order.id) (oid : Nat) :
    (findOrder db oid = some order ∧ findOrder db' oid = some rnew) ∨
    (findOrder db' oid = findOrder db oid) := by
  have htid : order.id = tid := by simpa using List.find?_some ho
  cases hcase : order.id == oid with
  | true =>
    have hoid : order.id = oid := by simpa using hcase
    have hdb : findOrder db oid = some order := by
      rw [← hoid, htid]; exact ho
    refine Or.inl ⟨hdb, ?_⟩
    unfold findOrder
    rw [hords]
    exact find?_replaceOrder_eq db.orders order rnew oid hdb hid
  | false =>
    refine Or.inr ?_
    unfold findOrder
    rw [hords]
    exact find?_replaceOrder_ne db.orders rnew oid (by rw [hid]; exact hcase)

theorem statusStep_of_unchanged {db : DB} {oid : Nat} {o' : Order}
    (h' : findOrder db oid = some o') :
    (∀ o, findOrder db oid = some o → statusStep o.status o'.status) ∧
    (findOrder db oid = none → o'.status = "CREATED") :=
  ⟨fun o ho => by
      rw [ho] at h'
      obtain rfl := Option.some.inj h'
      exact Or.inl rfl,
   fun hn => by rw [hn] at h'; cases h'⟩

theorem statusStep_of_replaced {db db' : DB} {oid : Nat} {o' order rnew : Order}
    (h' : findOrder db' oid = some o')
    (hdb : findOrder db oid = some order)
    (hdb' : findOrder db' oid = some rnew)
    (hstep : statusStep order.status rnew.status) :
    (∀ o, findOrder db oid = some o → statusStep o.status o'.status) ∧
    (findOrder db oid = none → o'.status = "CREATED") := by
  rw [h'] at hdb'
  obtain rfl := Option.some.inj hdb'
  refine ⟨fun o ho => ?_, fun hn => ?_⟩
  · rw [hdb] at ho
    obtain rfl := Option.some.inj ho
    exact hstep
  · rw [hn] at hdb
    cases hdb

/-- C2: across any single order-component request an order's status is
unchanged or moves forward along CREATED → PLACED → CANCELLED, and an order
that did not exist before the request was just created and has status
CREATED.  Hence a new order starts in CREATED, CREATED is never re-entered
from another state, CANCELLED is terminal, and PLACED → CANCELLED is the
only transition into CANCELLED. -/
theorem order_status_machine (op : Op) (db : DB) (oid : Nat) (o' : Order)
    (h' : findOrder (applyOp op db) oid = some o') :
    (∀ o, findOrder db oid = some o → statusStep o.status o'.status) ∧
    (findOrder db oid = none → o'.status = "CREATED") := by
  cases op with
  | createOrder u data newId =>
    simp only [applyOp] at h'
    cases hc : create_order u data newId db with
    | error e =>
      rw [hc, commitOr_error] at h'
      exact statusStep_of_unchanged h'
    | ok p =>
      rw [hc, commitOr_ok] at h'
      obtain ⟨rest, hrest, hguard, hcont, hresp, hords, _⟩ := create_order_ok hc
      have h'' : (db.orders ++ [(⟨newId, u.id, data.restaurant_id, "CREATED", 0⟩ : Order)]).find?
          (fun x => x.id == oid) = some o' := by
        unfold findOrder at h'
        rw [hords] at h'
        exact h'
      rw [List.find?_append] at h''
      constructor
      · intro o ho
        have hfo : db.orders.find? (fun x => x.id == oid) = some o := ho
        rw [hfo] at h''
        simp only [Option.or_some] at h''
        obtain rfl := Option.some.inj h''
        exact Or.inl rfl
      · intro hn
        have hfo : db.orders.find? (fun x => x.id == oid) = none := hn
        rw [hfo] at h''
        simp only [Option.none_or] at h''
        rw [List.find?] at h''
        cases hcase : ((⟨newId, u.id, data.restaurant_id, "CREATED", 0⟩ : Order).id == oid) with
        | true =>
          rw [hcase] at h''
          obtain rfl := Option.some.inj h''
          rfl
        | false =>
          rw [hcase] at h''
          exact Option.noConfusion h''
  | addItem u tid data =>
    simp only [applyOp] at h'
    cases hc : add_item u tid data db with
    | error e =>
      rw [hc, commitOr_error] at h'
      exact statusStep_of_unchanged h'
    | ok p =>
      rw [hc, commitOr_ok] at h'
      obtain ⟨order, mi, ho, hm, hst, hav, hords, _⟩ := add_item_ok hc
      rcases findOrder_after_replace ho hords rfl oid with ⟨hdb, hdb'⟩ | heq
      · exact statusStep_of_replaced h' hdb hdb' (Or.inl rfl)
      · rw [heq] at h'
        exact statusStep_of_unchanged h'
  | checkout u tid data =>
    simp only [applyOp] at h'
    cases hc : checkout_order u tid data db with
    | error e =>
      rw [hc, commitOr_error] at h'
      exact statusStep_of_unchanged h'
    | ok p =>
      rw [hc, commitOr_ok] at h'
      obtain ⟨order, ho, hst, _, _, _, _, hords, _⟩ := checkout_ok hc
      rcases findOrder_after_replace ho hords rfl oid with ⟨hdb, hdb'⟩ | heq
      · exact statusStep_of_replaced h' hdb hdb' (Or.inr (Or.inl ⟨hst, rfl⟩))
      · rw [heq] at h'
        exact statusStep_of_unchanged h'
  | cancel u tid =>
    simp only [applyOp] at h'
    cases hc : cancel_order u tid db with
    | error e =>
      rw [hc, commitOr_error] at h'
      exact statusStep_of_unchanged h'
    | ok p =>
      rw [hc, commitOr_ok] at h'
      obtain ⟨order, ho, hst, _, hords, _⟩ := cancel_ok hc
      rcases findOrder_after_replace ho hords rfl oid with ⟨hdb, hdb'⟩ | heq
      · exact statusStep_of_replaced h' hdb hdb' (Or.inr (Or.inr ⟨hst, rfl⟩))
      · rw [heq] at h'
        exact statusStep_of_unchanged h'

/-- Witness for C2: checking out the CREATED order 1 of `dbOrders` steps its
status along CREATED → PLACED. -/
theorem order_status_machine_witness :
    statusStep (⟨1, 2, 1, "CREATED", 0⟩ : Order).status
      (⟨1, 2, 1, "PLACED", 0⟩ : Order).status :=
  (order_status_machine (Op.checkout managerUser 1 ⟨1⟩) dbOrders 1
      ⟨1, 2, 1, "PLACED", 0⟩ (by decide)).1 ⟨1, 2, 1, "CREATED", 0⟩ (by decide)

/-- Counterexample for C3: `AddItemRequest.quantity` is validated only as an
integer, so `add_item` with quantity 0 succeeds and inserts an OrderItem row
whose quantity is 0 — the claim that a call with quantity ≤ 0 creates no row
fails on the code. -/
theorem add_item_zero_quantity_counterexample :
    add_item managerUser 1 ⟨1, 0⟩ dbOrders
      = .ok ({ dbOrders with
                orders := [⟨1, 2, 1, "CREATED", 0⟩],
                order_items := [⟨1, 1, 1, 0, 500⟩] },
             ⟨"Item added successfully"⟩) := by decide

/-- C3 amended: `add_item` performs no positivity check on the requested
quantity — whenever the role gate, order lookup, ownership, status and
menu-item guards pass, the call succeeds for every integer quantity
(including 0 and negatives) and stores exactly that quantity in the new
OrderItem row, incrementing the total by `price * quantity`. -/
theorem add_item_accepts_any_quantity (u : User) (oid : Nat)
    (data : AddItemRequest) (db : DB) (order : Order) (menu_item : MenuItem)
    (hrole : (["ADMIN", "MANAGER", "MEMBER"].contains (roleName db u)) = true)
    (horder : findOrder db oid = some order)
    (hown : (roleName db u != "ADMIN" && order.user_id != u.id) = false)
    (hstatus : order.status = "CREATED")
    (hmi : findMenuItem db data.menu_item_id = some menu_item)
    (hav : menu_item.is_available = true) :
    add_item u oid data db = .ok
      ({ db with
          orders := replaceOrder db.orders
            { order with
              total_amount := order.total_amount + menu_item.price * data.quantity },
          order_items := db.order_items ++
            [⟨db.order_items.length + 1, order.id, menu_item.id, data.quantity,
              menu_item.price⟩] },
       ⟨"Item added successfully"⟩) := by
  have hst : (order.status != "CREATED") = false := by simp [hstatus]
  have hav' : (!menu_item.is_available) = false := by simp [hav]
  unfold add_item
  rw [require_roles_of_contains hrole, horder, hmi]
  simp [hown, hst, hav']

/-- Witness for C3 amended: a negative quantity −3 is accepted verbatim. -/
theorem add_item_accepts_any_quantity_witness :
    add_item managerUser 1 ⟨1, -3⟩ dbOrders = .ok
      ({ dbOrders with
          orders := replaceOrder dbOrders.orders ⟨1, 2, 1, "CREATED", 0 + 500 * (-3)⟩,
          order_items := dbOrders.order_items ++ [⟨1, 1, 1, -3, 500⟩] },
       ⟨"Item added successfully"⟩) :=
  add_item_accepts_any_quantity managerUser 1 ⟨1, -3⟩ dbOrders
    ⟨1, 2, 1, "CREATED", 0⟩ ⟨1, "Tea", none, 500, true, 1⟩
    (by decide) (by decide) (by decide) rfl (by decide) rfl

/-- Witness for C1: manager adds 2 × item priced 500 to the fresh order 1 of
`dbOrders`; the stored total 1000 equals the line-item sum. -/
theorem order_total_invariant_witness :
    (⟨1, 2, 1, "CREATED", 1000⟩ : Order).total_amount
      = itemsTotal (runAddItems [(managerUser, 1, ⟨1, 2⟩)] dbOrders) 1 :=
  order_total_invariant [(managerUser, 1, ⟨1, 2⟩)] dbOrders 1
    ⟨1, 2, 1, "CREATED", 0⟩ (by decide) (by decide) (by decide)
    ⟨1, 2, 1, "CREATED", 1000⟩ (by decide)

/-- Counterexample for C5: on the PLACED order 1 of `dbPlaced` (owned by user
2), the MEMBER caller `memberUser` (user 3) fails the ownership check with
403 Forbidden, not the claimed InvalidState 400 — the ownership check runs
before the status check, so the claim does not hold for every caller
identity. -/
theorem add_item_nonowner_counterexample :
    add_item memberUser 1 ⟨1, 1⟩ dbPlaced = .error ⟨403, "Not your order"⟩ ∧
    add_item memberUser 1 ⟨1, 1⟩ dbPlaced ≠ .error ⟨400, "Order already finalized"⟩ := by
  decide

/-- C5 amended: for callers that pass the role gate and the ownership check
(ADMIN, or the order's owner), `add_item` on an existing order whose status
is not CREATED fails with InvalidState 400 ("Order already finalized"); the
handler raises before any insert, so no OrderItem row is created and no total
changes.  A non-ADMIN caller that does not own the order fails earlier with
403 Forbidden instead. -/
theorem add_item_invalid_state (u : User) (oid : Nat) (data : AddItemRequest)
    (db : DB) (order : Order)
    (hrole : (["ADMIN", "MANAGER", "MEMBER"].contains (roleName db u)) = true)
    (horder : findOrder db oid = some order)
    (hown : (roleName db u != "ADMIN" && order.user_id != u.id) = false)
    (hstatus : order.status ≠ "CREATED") :
    add_item u oid data db = .error ⟨400, "Order already finalized"⟩ := by
  have hst : (order.status != "CREATED") = true := by simp [hstatus]
  unfold add_item
  rw [require_roles_of_contains hrole, horder]
  simp [hown, hst]

/-- Witness for C5 amended: the owner (a MANAGER) adding to their own PLACED
order gets the InvalidState 400. -/
theorem add_item_invalid_state_witness :
    add_item managerUser 1 ⟨1, 1⟩ dbPlaced
      = .error ⟨400, "Order already finalized"⟩ :=
  add_item_invalid_state managerUser 1 ⟨1, 1⟩ dbPlaced ⟨1, 2, 1, "PLACED", 500⟩
    (by decide) (by decide) (by decide) (by decide)

/-- C6: a successful checkout returns status PLACED together with the order's
(unchanged) total, stores the order with status PLACED, and any second
checkout of that order by the same caller fails with InvalidState 400
("Already processed"), committing nothing. -/
theorem checkout_exactly_once (u : User) (oid : Nat) (data : CheckoutRequest)
    (db db' : DB) (r : CheckoutResponse)
    (h : checkout_order u oid data db = .ok (db', r)) :
    r.status = "PLACED" ∧
    (∀ o, findOrder db oid = some o →
        r.total_amount = o.total_amount ∧
        findOrder db' oid = some { o with status := "PLACED" }) ∧
    (∀ data2 : CheckoutRequest,
        checkout_order u oid data2 db' = .error ⟨400, "Already processed"⟩) := by
  obtain ⟨order, ho, hst, hown, hcont, hpay, hr, hords, hitems, hroles,
    hcountries, husers, hrests, hmenu, hpms⟩ := checkout_ok h
  have hfind' : findOrder db' oid = some { order with status := "PLACED" } := by
    unfold findOrder
    rw [hords]
    exact find?_replaceOrder_eq db.orders order _ oid ho rfl
  have hrole' : roleName db' u = roleName db u := by
    unfold roleName
    rw [hroles]
  refine ⟨by rw [hr], ?_, ?_⟩
  · intro o hoo
    rw [ho] at hoo
    obtain rfl := Option.some.inj hoo
    exact ⟨by rw [hr], hfind'⟩
  · intro data2
    unfold checkout_order
    rw [require_roles_of_contains (by rw [hrole']; exact hcont), hfind']
    simp [hrole', hown]

/-- Witness for C6: after the manager checks out order 1 of `dbOrders`, a
second checkout attempt (any payment id) fails with 400. -/
theorem checkout_exactly_once_witness :
    checkout_order managerUser 1 ⟨5⟩
        { dbOrders with orders := [⟨1, 2, 1, "PLACED", 0⟩] }
      = .error ⟨400, "Already processed"⟩ :=
  (checkout_exactly_once managerUser 1 ⟨1⟩ dbOrders
      { dbOrders with orders := [⟨1, 2, 1, "PLACED", 0⟩] } ⟨1, "PLACED", 0⟩
      (by decide)).2.2 ⟨5⟩

/-- Counterexample for C4: in `dbPayments` user 1 already has payment method
1 as default; `update_payment_method` setting method 2's default flag leaves
method 1 untouched, so the user ends up with two defaults — the claim that
every operation setting `is_default` clears the user's other defaults fails
for `update_payment_method`. -/
theorem update_payment_default_counterexample :
    update_payment_method 2 ⟨none, some true⟩ adminUser dbPayments
      = .ok ({ dbPayments with
                payment_methods := [⟨1, 1, "CARD", "Visa", "1111", true⟩,
                                    ⟨2, 1, "UPI", "GPay", "2222", true⟩] },
             ⟨"Payment method updated"⟩) ∧
    defaultCount { dbPayments with
        payment_methods := [⟨1, 1, "CARD", "Visa", "1111", true⟩,
                            ⟨2, 1, "UPI", "GPay", "2222", true⟩] } 1 = 2 := by
  decide


theorem add_payment_method_ok {u : User} {data : PaymentMethodCreate}
    {db db' : DB} {r : PaymentMethodCreatedResponse}
    (h : add_payment_method u data db = .ok (db', r)) :
    db'.payment_methods =
      (if data.is_default then
        db.payment_methods.map (fun p =>
          if p.user_id == u.id then { p with is_default := false } else p)
      else db.payment_methods) ++
      [⟨db.payment_methods.length + 1, u.id, data.type, data.provider,
        data.last_four, data.is_default⟩] := by
  unfold add_payment_method at h
  cases hg : require_roles ["ADMIN"] db u with
  | error e => simp [hg] at h
  | ok w =>
    simp only [hg, Except.ok.injEq, Prod.mk.injEq] at h
    obtain ⟨hdb, hr⟩ := h
    rw [← hdb]

theorem filter_map_invariant {α : Type} (f : α → α) (p : α → Bool)
    (l : List α) (hpres : ∀ a, p (f a) = p a)
    (hid : ∀ a, p a = true → f a = a) :
    (l.map f).filter p = l.filter p := by
  induction l with
  | nil => rfl
  | cons a as ih =>
    simp only [List.map, List.filter]
    cases hq : p a with
    | true => rw [hpres a, hq, hid a hq, ih]
    | false => rw [hpres a, hq, ih]

theorem filter_clear_defaults (l : List PaymentMethod) (uid : Nat) :
    (l.map (fun p =>
      if p.user_id == uid then { p with is_default := false } else p)).filter
      (fun p => p.user_id == uid && p.is_default) = [] := by
  rw [List.filter_eq_nil_iff]
  intro a ha
  obtain ⟨p, hpmem, rfl⟩ := List.mem_map.mp ha
  by_cases hp : (p.user_id == uid) = true
  · simp [hp]
  · simp [hp]

theorem filter_clear_other (l : List PaymentMethod) (uid other : Nat)
    (h : other ≠ uid) :
    (l.map (fun p =>
      if p.user_id == uid then { p with is_default := false } else p)).filter
      (fun p => p.user_id == other && p.is_default)
      = l.filter (fun p => p.user_id == other && p.is_default) := by
  refine filter_map_invariant _ _ l ?_ ?_
  · intro a
    by_cases hp : (a.user_id == uid) = true
    · have ho : (a.user_id == other) = false := by
        have ha : a.user_id = uid := by simpa using hp
        rw [ha]
        simpa using fun hc => h hc.symm
      simp [hp, ho]
    · simp [hp]
  · intro a hpa
    have : (a.user_id == uid) = false := by
      have ho : a.user_id = other := by
        have := (Bool.and_eq_true _ _).mp hpa
        simpa using this.1
      rw [ho]
      simpa using h
    simp [this]

theorem filter_singleton_true {α : Type} (p : α → Bool) (a : α)
    (h : p a = true) : [a].filter p = [a] := by
  simp [List.filter, h]

theorem filter_singleton_false {α : Type} (p : α → Bool) (a : α)
    (h : p a = false) : [a].filter p = [] := by
  simp [List.filter, h]

/-- C4 amended: `add_payment_method` maintains the single-default invariant —
with `is_default` set it first clears every default of the caller in the same
commit, leaving the caller exactly one default; without it the caller's
default count is unchanged (so still at most one); other users' counts never
change.  `update_payment_method`, by contrast, sets the flag without clearing
the user's other defaults and can produce two defaults (see the
counterexample), so the claimed invariant holds only for the add path. -/
theorem add_payment_single_default (u : User) (data : PaymentMethodCreate)
    (db db' : DB) (r : PaymentMethodCreatedResponse)
    (h : add_payment_method u data db = .ok (db', r))
    (hinv : defaultCount db u.id ≤ 1) :
    defaultCount db' u.id ≤ 1 ∧
    (data.is_default = true → defaultCount db' u.id = 1) ∧
    (∀ uid, uid ≠ u.id → defaultCount db' uid = defaultCount db uid) := by
  have hpms := add_payment_method_ok h
  cases hd : data.is_default with
  | true =>
    rw [hd, if_pos rfl] at hpms
    have hcount : defaultCount db' u.id = 1 := by
      unfold defaultCount
      rw [hpms, List.filter_append, filter_clear_defaults,
        filter_singleton_true _ _ (by simp)]
      rfl
    refine ⟨by rw [hcount], fun _ => hcount, ?_⟩
    intro uid huid
    have hnew : (u.id == uid) = false := by
      simpa using fun hc => huid hc.symm
    unfold defaultCount
    rw [hpms, List.filter_append, filter_clear_other _ _ _ huid,
      filter_singleton_false _ _ (by simp [hnew]), List.append_nil]
  | false =>
    rw [hd, if_neg (by simp)] at hpms
    refine ⟨?_, fun hc => Bool.noConfusion hc, ?_⟩
    · unfold defaultCount
      rw [hpms, List.filter_append,
        filter_singleton_false _ _ (by simp), List.append_nil]
      exact hinv
    · intro uid huid
      unfold defaultCount
      rw [hpms, List.filter_append,
        filter_singleton_false _ _ (by simp), List.append_nil]

/-- Witness for C4 amended: adding a new default payment method for user 1 on
`dbPayments` (which already had a default) yields exactly one default for
user 1 and leaves user 2's count unchanged. -/
theorem add_payment_single_default_witness :
    defaultCount dbPayAfter 1 = 1 ∧
    defaultCount dbPayAfter 2 = defaultCount dbPayments 2 :=
  ⟨(add_payment_single_default adminUser ⟨"CARD", "Amex", "3333", true⟩
      dbPayments dbPayAfter ⟨"Payment method added", 3⟩
      (by decide) (by decide)).2.1 rfl,
   (add_payment_single_default adminUser ⟨"CARD", "Amex", "3333", true⟩
      dbPayments dbPayAfter ⟨"Payment method added", 3⟩
      (by decide) (by decide)).2.2 2 (by decide)⟩

theorem get_restaurants_scope {u : User} {db : DB} {skip limit : Nat}
    {resp : RestaurantListResponse}
    (hu : roleName db u ≠ "ADMIN")
    (h : get_restaurants u db skip limit = .ok resp) :
    ∀ item ∈ resp.items,
      ∃ rest ∈ db.restaurants,
        rest.id = item.id ∧ rest.country_id = u.country_id := by
  unfold get_restaurants at h
  cases hg : require_roles ["ADMIN", "MANAGER", "MEMBER"] db u with
  | error e => simp [hg] at h
  | ok w =>
    simp only [hg, Except.ok.injEq] at h
    subst h
    intro item hitem
    obtain ⟨rrow, hmem, rfl⟩ := List.mem_map.mp hitem
    have hmem' := mem_paginate hmem
    have hadm : (roleName db u == "ADMIN") = false := by simpa using hu
    unfold restaurantsScope at hmem'
    rw [hadm] at hmem'
    simp only [Bool.false_eq_true, if_false] at hmem'
    obtain ⟨hin, hpred⟩ := List.mem_filter.mp hmem'
    exact ⟨rrow, hin, rfl, by simpa using hpred⟩

theorem get_menu_items_scope {rid : Nat} {u : User} {db : DB}
    {skip limit : Nat} {resp : MenuItemListResponse}
    (hu : roleName db u ≠ "ADMIN")
    (h : get_menu_items rid u db skip limit = .ok resp) :
    ∃ rest, findRestaurant db rid = some rest ∧
      rest.country_id = u.country_id ∧
      ∀ item ∈ resp.items, item.restaurant_id = rid := by
  unfold get_menu_items at h
  cases hg : require_roles ["ADMIN", "MANAGER", "MEMBER"] db u with
  | error e => simp [hg] at h
  | ok w =>
    simp only [hg] at h
    cases hr : findRestaurant db rid with
    | none => simp [hr] at h
    | some rest =>
      simp only [hr] at h
      cases hguard : roleName db u != "ADMIN" && rest.country_id != u.country_id with
      | true => simp [hguard] at h
      | false =>
        simp only [hguard, Bool.false_eq_true, if_false, Except.ok.injEq] at h
        subst h
        have hne : (roleName db u != "ADMIN") = true := by simpa using hu
        have hcountry : rest.country_id = u.country_id := by
          rw [hne] at hguard
          simpa using hguard
        refine ⟨rest, rfl, hcountry, ?_⟩
        intro item hitem
        obtain ⟨mrow, hmem, rfl⟩ := List.mem_map.mp hitem
        have hmem' := mem_paginate hmem
        obtain ⟨hin, hpred⟩ := List.mem_filter.mp hmem'
        simpa using hpred

theorem list_orders_scope {q : GetOrdersQuery} {u : User} {db : DB}
    {resp : OrderListResponse}
    (hu : roleName db u ≠ "ADMIN")
    (h : list_orders q u db = .ok resp) :
    ∀ item ∈ resp.items,
      ∃ rest, findRestaurant db item.restaurant_id = some rest ∧
        rest.country_id = u.country_id := by
  unfold list_orders at h
  cases hg : require_roles ["ADMIN", "MANAGER", "MEMBER"] db u with
  | error e => simp [hg] at h
  | ok w =>
    simp only [hg, Except.ok.injEq] at h
    subst h
    intro item hitem
    obtain ⟨orow, hmem, rfl⟩ := List.mem_map.mp hitem
    have hmem' := mem_sortByOrderId.mp (mem_paginate hmem)
    have hscope : orow ∈ ordersScope db u := by
      unfold ordersMatching at hmem'
      cases hq : q.restaurant_id with
      | none => rw [hq] at hmem'; exact hmem'
      | some rid =>
        rw [hq] at hmem'
        exact (List.mem_filter.mp hmem').1
    have hadm : (roleName db u == "ADMIN") = false := by simpa using hu
    unfold ordersScope at hscope
    rw [hadm] at hscope
    simp only [Bool.false_eq_true, if_false] at hscope
    obtain ⟨hin, hpred⟩ := List.mem_filter.mp hscope
    cases hfr : findRestaurant db orow.restaurant_id with
    | none => rw [hfr] at hpred; cases hpred
    | some rest =>
      rw [hfr] at hpred
      exact ⟨rest, rfl, by simpa using hpred⟩

/-- C7: for every non-ADMIN caller, the pages returned by `get_restaurants`,
`get_menu_items` and `list_orders` contain only rows of the caller's own
country — for an order, the country of the order's restaurant; for menu
items, the (already country-checked) restaurant they belong to. -/
theorem nonadmin_country_scoping (u : User) (db : DB) (skip limit rid : Nat)
    (q : GetOrdersQuery) (hu : roleName db u ≠ "ADMIN") :
    (∀ resp, get_restaurants u db skip limit = .ok resp →
      ∀ item ∈ resp.items,
        ∃ rest ∈ db.restaurants,
          rest.id = item.id ∧ rest.country_id = u.country_id) ∧
    (∀ resp, get_menu_items rid u db skip limit = .ok resp →
      ∃ rest, findRestaurant db rid = some rest ∧
        rest.country_id = u.country_id ∧
        ∀ item ∈ resp.items, item.restaurant_id = rid) ∧
    (∀ resp, list_orders q u db = .ok resp →
      ∀ item ∈ resp.items,
        ∃ rest, findRestaurant db item.restaurant_id = some rest ∧
          rest.country_id = u.country_id) :=
  ⟨fun _ h => get_restaurants_scope hu h,
   fun _ h => get_menu_items_scope hu h,
   fun _ h => list_orders_scope hu h⟩

/-- Witness for C7: the MEMBER in country 1 listing restaurants over
`dbOrders` (countries 1 and 2) receives only the country-1 restaurant. -/
theorem nonadmin_country_scoping_witness :
    ∃ rest ∈ dbOrders.restaurants,
      rest.id = 1 ∧ rest.country_id = memberUser.country_id :=
  (nonadmin_country_scoping memberUser dbOrders 0 20 1 ⟨none, 0, 20⟩
      (by decide)).1
    ⟨[⟨1, "Cafe", "India"⟩], ⟨1, 0, 20, 1, 1⟩⟩ (by decide)
    ⟨1, "Cafe", "India"⟩ (by decide)

/-- C8: for `get_menu_items` and `create_order`, an absent restaurant yields
NotFound 404; an existing restaurant in a different country yields Forbidden
403 for a non-ADMIN caller (existence is not hidden); an ADMIN caller passing
the gates succeeds regardless of the restaurant's country. -/
theorem country_scope_errors (u : User) (rid newId skip limit : Nat) (db : DB)
    (hrole : (["ADMIN", "MANAGER", "MEMBER"].contains (roleName db u)) = true) :
    (findRestaurant db rid = none →
      get_menu_items rid u db skip limit = .error ⟨404, "Restaurant not found"⟩ ∧
      create_order u ⟨rid⟩ newId db = .error ⟨404, "Restaurant not found"⟩) ∧
    (∀ rest, findRestaurant db rid = some rest → roleName db u ≠ "ADMIN" →
      rest.country_id ≠ u.country_id →
      get_menu_items rid u db skip limit = .error ⟨403, "Access denied"⟩ ∧
      create_order u ⟨rid⟩ newId db = .error ⟨403, "Access denied"⟩) ∧
    (∀ rest, findRestaurant db rid = some rest → roleName db u = "ADMIN" →
      (get_menu_items rid u db skip limit).isOk = true ∧
      (create_order u ⟨rid⟩ newId db).isOk = true) := by
  refine ⟨?_, ?_, ?_⟩
  · intro hnone
    constructor
    · unfold get_menu_items
      rw [require_roles_of_contains hrole, hnone]
    · unfold create_order
      rw [require_roles_of_contains hrole]
      simp only [hnone]
  · intro rest hrest hne hcne
    have h1 : (roleName db u != "ADMIN") = true := by simpa using hne
    have h2 : (rest.country_id != u.country_id) = true := by simpa using hcne
    constructor
    · unfold get_menu_items
      rw [require_roles_of_contains hrole, hrest]
      simp [h1, h2]
    · unfold create_order
      rw [require_roles_of_contains hrole]
      simp only [hrest]
      simp [h1, h2]
  · intro rest hrest hadm
    have h1 : (roleName db u != "ADMIN") = false := by simp [hadm]
    constructor
    · unfold get_menu_items
      rw [require_roles_of_contains hrole, hrest]
      simp only [h1, Bool.false_eq_true, if_false]
      rfl
    · unfold create_order
      rw [require_roles_of_contains hrole]
      simp only [hrest]
      simp only [h1, Bool.false_and, Bool.false_eq_true, if_false]
      rfl

/-- Witness for C8: the MEMBER in country 1 hitting the existing country-2
restaurant of `dbOrders` gets 403 from both endpoints. -/
theorem country_scope_errors_witness :
    get_menu_items 2 memberUser dbOrders 0 20 = .error ⟨403, "Access denied"⟩ ∧
    create_order memberUser ⟨2⟩ 9 dbOrders = .error ⟨403, "Access denied"⟩ :=
  (country_scope_errors memberUser 2 9 0 20 dbOrders (by decide)).2.1
    ⟨2, "Diner", 2⟩ (by decide) (by decide) (by decide)

/-- C9: `register` is reachable with no caller at all (the handler has no
authentication dependency — it takes only the request body), accepts
role=ADMIN, and the created account then passes the ADMIN-only
`require_roles` gate: `get_current_user` decodes the issued token's `sub`
claim and re-resolves the role from the stored user record.  Hypotheses: the
ADMIN role row and the
requested country row are seeded, role ids are unique, the email is fresh
(else the unique constraint fails the commit) and the generated id is fresh. -/
theorem register_admin_self_assignable (data : RegisterRequest)
    (newId expire : Nat) (db : DB) (radm : Role)
    (hrole : data.role = "ADMIN")
    (hadm : db.roles.find? (fun r => r.name == data.role) = some radm)
    (hcountry : (db.countries.find? (fun c => c.name == data.country)).isSome = true)
    (hemail : db.users.any (fun u0 => u0.email == data.email) = false)
    (hfresh : db.users.find? (fun u0 => u0.id == newId) = none)
    (hids : ∀ r ∈ db.roles, r.id = radm.id → r = radm) :
    ∃ db' resp, register data newId expire db = .ok (db', resp) ∧
      resp.id = newId ∧
      ∃ u', get_current_user resp.access_token db' = .ok u' ∧
        roleName db' u' = "ADMIN" ∧
        require_roles ["ADMIN"] db' u' = .ok u' := by
  cases hc : db.countries.find? (fun c => c.name == data.country) with
  | none => rw [hc] at hcountry; cases hcountry
  | some crow =>
    refine ⟨{ db with users := db.users ++
        [⟨newId, data.name, data.email, hash_password data.password, radm.id, crow.id⟩] },
      { id := newId, name := data.name, email := data.email,
        access_token := create_access_token
          ⟨newId, data.name, data.email, none, 0⟩ expire }, ?_, rfl, ?_⟩
    · unfold register
      rw [hadm, hc, hemail]
      rfl
    · have hfind : (db.users ++
          [(⟨newId, data.name, data.email, hash_password data.password, radm.id,
            crow.id⟩ : User)]).find? (fun u0 => u0.id == newId)
          = some ⟨newId, data.name, data.email, hash_password data.password,
              radm.id, crow.id⟩ := by
        rw [List.find?_append, hfresh]
        simp [List.find?]
      have hname : radm.name = data.role := by simpa using List.find?_some hadm
      have hrow : ∃ r0, db.roles.find? (fun r => r.id == radm.id) = some r0 ∧
          r0 = radm := by
        cases hf : db.roles.find? (fun r => r.id == radm.id) with
        | none =>
          rw [List.find?_eq_none] at hf
          exact absurd (by simp : (radm.id == radm.id) = true)
            (by simpa using hf radm (List.mem_of_find?_eq_some hadm))
        | some r0 =>
          exact ⟨r0, rfl, hids r0 (List.mem_of_find?_eq_some hf)
            (by simpa using List.find?_some hf)⟩
      obtain ⟨r0, hf, rfl⟩ := hrow
      have hrn : roleName
          { db with users := db.users ++
            [⟨newId, data.name, data.email, hash_password data.password, r0.id,
              crow.id⟩] }
          ⟨newId, data.name, data.email, hash_password data.password, r0.id,
            crow.id⟩ = "ADMIN" := by
        show ((db.roles.find? (fun r => r.id == r0.id)).map Role.name).getD ""
          = "ADMIN"
        rw [hf]
        simp [hname, hrole]
      refine ⟨⟨newId, data.name, data.email, hash_password data.password, r0.id,
        crow.id⟩, ?_, hrn, ?_⟩
      · unfold get_current_user
        simp only [create_access_token, jwt_encode, jwt_decode]
        rw [hfind]
      · exact require_roles_of_contains (by rw [hrn]; decide)

/-- Witness for C9: on the freshly seeded store, an anonymous registration
with role ADMIN succeeds and the new account passes the ADMIN gate. -/
theorem register_admin_self_assignable_witness :
    ∃ db' resp,
      register ⟨"Eve", "eve@example.com", "pw", "ADMIN", "India"⟩ 1 60 dbSeedOnly
        = .ok (db', resp) ∧
      resp.id = 1 ∧
      ∃ u', get_current_user resp.access_token db' = .ok u' ∧
        roleName db' u' = "ADMIN" ∧
        require_roles ["ADMIN"] db' u' = .ok u' :=
  register_admin_self_assignable ⟨"Eve", "eve@example.com", "pw", "ADMIN", "India"⟩
    1 60 dbSeedOnly ⟨1, "ADMIN"⟩ rfl (by decide) (by decide) (by decide) (by decide)
    (by decide)

/-- Counterexample for C10: over the five restaurants of `dbFive` with
skip=10, limit=20, the empty page is returned with end = 10 (the skip), not
the claimed end = 0 — the code computes `end = skip + count_returned`
unconditionally. -/
theorem pagination_empty_end_counterexample :
    get_restaurants adminUser dbFive 10 20
      = .ok ⟨[], ⟨5, 10, 20, 0, 10⟩⟩ ∧
    get_restaurants adminUser dbFive 10 20
      ≠ .ok ⟨[], ⟨5, 10, 20, 0, 0⟩⟩ := by
  decide

/-- C10 amended: every page of `get_restaurants` and `list_orders` carries
`total` = number of matching rows ignoring skip/limit, echoes `skip` and
`limit`, has `start = skip + 1` on a nonempty page and `start = 0` on an
empty one, and always has `end = skip + count_returned` — so an empty page
has `end = skip` (10 in the skip=10 example), not 0; the skip=0, limit=20,
five-row example yields start=1, end=5, total=5 as claimed. -/
theorem pagination_contract (u : User) (db : DB) (skip limit : Nat)
    (q : GetOrdersQuery)
    (hrole : (["ADMIN", "MANAGER", "MEMBER"].contains (roleName db u)) = true) :
    (∀ resp, get_restaurants u db skip limit = .ok resp →
      resp.items.length = (paginate skip limit (restaurantsScope db u)).length ∧
      resp.pagination_metadata.total = (restaurantsScope db u).length ∧
      resp.pagination_metadata.skip = skip ∧
      resp.pagination_metadata.limit = limit ∧
      resp.pagination_metadata.start
        = (if 0 < resp.items.length then skip + 1 else 0) ∧
      resp.pagination_metadata.end_ = skip + resp.items.length) ∧
    (∀ resp, list_orders q u db = .ok resp →
      resp.pagination_metadata.total = (ordersMatching db u q).length ∧
      resp.pagination_metadata.skip = q.skip ∧
      resp.pagination_metadata.limit = q.limit ∧
      resp.pagination_metadata.start
        = (if 0 < resp.items.length then q.skip + 1 else 0) ∧
      resp.pagination_metadata.end_ = q.skip + resp.items.length) := by
  constructor
  · intro resp h
    unfold get_restaurants at h
    rw [require_roles_of_contains hrole] at h
    simp only [Except.ok.injEq] at h
    subst h
    refine ⟨by simp, rfl, rfl, rfl, rfl, rfl⟩
  · intro resp h
    unfold list_orders at h
    rw [require_roles_of_contains hrole] at h
    simp only [Except.ok.injEq] at h
    subst h
    refine ⟨rfl, rfl, rfl, rfl, rfl⟩

/-- Witness for C10 amended: skip=0, limit=20 over the five rows of `dbFive`
reports total = 5. -/
theorem pagination_contract_witness :
    (5 : Nat) = (restaurantsScope dbFive adminUser).length :=
  ((pagination_contract adminUser dbFive 0 20 ⟨none, 0, 20⟩ (by decide)).1
    ⟨[⟨1, "R1", "India"⟩, ⟨2, "R2", "India"⟩, ⟨3, "R3", "India"⟩,
      ⟨4, "R4", "India"⟩, ⟨5, "R5", "India"⟩], ⟨5, 0, 20, 1, 5⟩⟩
    (by decide)).2.1
